import Mathlib

/-!
Verification of the PySide OpenGL tutorial notebooks (02-rectangle, 05-cube,
06-events) against their specification.  The Python classes are shallowly
embedded: widget/window state becomes structures over ℚ, event handlers become
pure state-transformers that also emit the list of GL-widget calls they make,
and the two `paintGL` drawing loops become functions emitting a trace of GL
commands.  Matrix constructions (`QMatrix4x4.translate` / `.rotate` /
`.perspective`) are kept symbolic: a model matrix is the list of transform
operations applied to the identity, and a projection is the record of the four
arguments handed to the library `perspective` call.
-/

set_option autoImplicit false

namespace PysideTutorials

/-- A 3d vector (`QVector3D`), with exact rational coordinates. -/
structure Vec3 where
  x : ℚ
  y : ℚ
  z : ℚ
deriving DecidableEq, Repr

def Vec3.add (a b : Vec3) : Vec3 := ⟨a.x + b.x, a.y + b.y, a.z + b.z⟩

def Vec3.smul (c : ℚ) (v : Vec3) : Vec3 := ⟨c * v.x, c * v.y, c * v.z⟩

/-- First-person camera state: position, direction vectors, Euler angles and
zoom, as listed by the spec ("position, front/up/right vectors, yaw, pitch,
zoom"). -/
structure Camera where
  position : Vec3
  front : Vec3
  up : Vec3
  right : Vec3
  yaw : ℚ
  pitch : ℚ
  zoom : ℚ
deriving DecidableEq, Repr

/-- Modelled from the spec: `camera.py` is not among the sources.  The spec
describes "a first-person camera with yaw/pitch/zoom state" whose update rules
are "offset accumulation, vector renormalization", and the events notebook says
`lookAround` "simply assigns new pitch and yaw values using these offsets then
updates the vectors of the camera like front, right, up".  So yaw and pitch
accumulate the offsets, pitch being clamped when `pitchBound` is set; the
trigonometric renormalization of front/right/up is not needed by any claim and
is abstracted away (the vectors are left untouched). -/
def Camera.lookAround (c : Camera) (xoffset yoffset : ℚ) (pitchBound : Bool) :
    Camera :=
  let pitch0 := c.pitch + yoffset
  { c with
    yaw := c.yaw + xoffset
    pitch := if pitchBound then max (-89) (min 89 pitch0) else pitch0 }

/-- Modelled from the spec: `camera.py` is not among the sources.  Per the spec
the buttons "forward UI values into a camera object"; an fps-style
`moveCamera` displaces the position along the front axis (forward/backward) or
the right axis (left/right) by the movement speed. -/
def Camera.moveCamera (c : Camera) (direction : String) (speed : ℚ) : Camera :=
  if direction = "forward" then
    { c with position := c.position.add (Vec3.smul speed c.front) }
  else if direction = "backward" then
    { c with position := c.position.add (Vec3.smul (-speed) c.front) }
  else if direction = "left" then
    { c with position := c.position.add (Vec3.smul (-speed) c.right) }
  else if direction = "right" then
    { c with position := c.position.add (Vec3.smul speed c.right) }
  else c

/-- A value-holding range widget (the `camX`, `camY`, `xSlider`, `ySlider`,
`zSlider` widgets of the window).  `setRange`/`setValue` clamp the held value
into the range, which is the standard behaviour of the Qt widgets the window
uses. -/
structure Slider where
  lo : ℚ
  hi : ℚ
  val : ℚ
deriving DecidableEq, Repr

def Slider.setValue (s : Slider) (v : ℚ) : Slider :=
  { s with val := max s.lo (min s.hi v) }

def Slider.setRange (s : Slider) (lo hi : ℚ) : Slider :=
  { lo := lo, hi := hi, val := max lo (min hi s.val) }

/-- The calls an `EventAppWindow` handler can make on its GL widget. -/
inductive GLCall where
  | moveCamera (direction : String)
  | turnAround (x y : ℚ)
  | rotateCubes (rx ry rz : ℚ)
deriving DecidableEq, Repr

/-- State of `EventAppWindow` (06-events `app.py`): the five range widgets and
the two remembered slider values set at the end of the constructor. -/
structure EventAppWindow where
  camX : Slider
  camY : Slider
  xSlider : Slider
  ySlider : Slider
  zSlider : Slider
  lastCamXVal : ℚ
  lastCamYVal : ℚ
deriving DecidableEq, Repr

/-- `EventAppWindow.__init__`: sets every range to `(-180.0, 180.0)`, connects
the signals (the connections are represented by `activate` below), then stores
`camX.value()` and `camY.value()`.  The five sliders of the base window are
parameters, in whatever state the base constructor left them. -/
def EventAppWindow.init (camX0 camY0 xs0 ys0 zs0 : Slider) : EventAppWindow :=
  let camX := camX0.setRange (-180) 180
  let camY := camY0.setRange (-180) 180
  let xs := xs0.setRange (-180) 180
  let ys := ys0.setRange (-180) 180
  let zs := zs0.setRange (-180) 180
  { camX := camX, camY := camY, xSlider := xs, ySlider := ys, zSlider := zs
    lastCamXVal := camX.val
    lastCamYVal := camY.val }

/-- `EventAppWindow.moveGLCamera`: forwards the direction string to
`glWidget.moveCamera`. -/
def EventAppWindow.moveGLCamera (w : EventAppWindow) (direction : String) :
    EventAppWindow × List GLCall :=
  (w, [GLCall.moveCamera direction])

def EventAppWindow.moveCameraForward (w : EventAppWindow) :
    EventAppWindow × List GLCall :=
  w.moveGLCamera "forward"

def EventAppWindow.moveCameraBackward (w : EventAppWindow) :
    EventAppWindow × List GLCall :=
  w.moveGLCamera "backward"

def EventAppWindow.moveCameraLeft (w : EventAppWindow) :
    EventAppWindow × List GLCall :=
  w.moveGLCamera "left"

def EventAppWindow.moveCameraRight (w : EventAppWindow) :
    EventAppWindow × List GLCall :=
  w.moveGLCamera "right"

/-- `EventAppWindow.turnCameraX`: x offset is the delivered value minus
`lastCamXVal`, the y argument is `camY.value() - lastCamYVal`, both forwarded
to `glWidget.turnAround`; then `lastCamXVal` is set to the delivered value. -/
def EventAppWindow.turnCameraX (w : EventAppWindow) (newVal : ℚ) :
    EventAppWindow × List GLCall :=
  let offsetx := newVal - w.lastCamXVal
  let valy := w.camY.val - w.lastCamYVal
  ({ w with lastCamXVal := newVal }, [GLCall.turnAround offsetx valy])

/-- `EventAppWindow.turnCameraY`, symmetric to `turnCameraX`. -/
def EventAppWindow.turnCameraY (w : EventAppWindow) (newVal : ℚ) :
    EventAppWindow × List GLCall :=
  let offsety := newVal - w.lastCamYVal
  let valx := w.camX.val - w.lastCamXVal
  ({ w with lastCamYVal := newVal }, [GLCall.turnAround valx offsety])

/-- `EventAppWindow.rotateCubes`: reads the three rotation sliders and forwards
their values to `glWidget.rotateCubes`. -/
def EventAppWindow.rotateCubes (w : EventAppWindow) :
    EventAppWindow × List GLCall :=
  (w, [GLCall.rotateCubes w.xSlider.val w.ySlider.val w.zSlider.val])

/-- The UI controls the constructor wires up: two camera sliders, three cube
rotation sliders, four direction buttons. -/
inductive Control where
  | camX
  | camY
  | xSlider
  | ySlider
  | zSlider
  | upBtn
  | downBtn
  | leftBtn
  | rightBtn
deriving DecidableEq, Repr

/-- Store a freshly delivered value into the slider a control names (for a
slider control, Qt updates the widget's value, clamped into its range, before
emitting `valueChanged`); button controls hold no value. -/
def EventAppWindow.setControlValue (w : EventAppWindow) (c : Control) (v : ℚ) :
    EventAppWindow :=
  match c with
  | .camX => { w with camX := w.camX.setValue v }
  | .camY => { w with camY := w.camY.setValue v }
  | .xSlider => { w with xSlider := w.xSlider.setValue v }
  | .ySlider => { w with ySlider := w.ySlider.setValue v }
  | .zSlider => { w with zSlider := w.zSlider.setValue v }
  | _ => w

/-- One activation of a control: for a slider, the value is stored (clamped)
and the handler connected in `EventAppWindow.__init__` runs with the new value;
for a button, the connected handler runs.  Returns the updated window and the
GL-widget calls the handler made. -/
def EventAppWindow.activate (w : EventAppWindow) (c : Control) (v : ℚ) :
    EventAppWindow × List GLCall :=
  let w1 := w.setControlValue c v
  match c with
  | .camX => w1.turnCameraX w1.camX.val
  | .camY => w1.turnCameraY w1.camY.val
  | .xSlider => w1.rotateCubes
  | .ySlider => w1.rotateCubes
  | .zSlider => w1.rotateCubes
  | .upBtn => w1.moveCameraForward
  | .downBtn => w1.moveCameraBackward
  | .leftBtn => w1.moveCameraLeft
  | .rightBtn => w1.moveCameraRight

/-- Run a sequence of UI events, concatenating the emitted GL-widget calls. -/
def EventAppWindow.runEvents (w : EventAppWindow) (evts : List (Control × ℚ)) :
    EventAppWindow × List GLCall :=
  match evts with
  | [] => (w, [])
  | e :: rest =>
    let (w1, cs) := w.activate e.1 e.2
    let (w2, cs2) := w1.runEvents rest
    (w2, cs ++ cs2)

/-- State of the `EventsGL` widget (06-events): the camera the window's calls
act on, the cube rotation vector fed to the per-frame uniform updates, and the
cube positions and widget dimensions read by `paintGL`. -/
structure EventsGLState where
  camera : Camera
  rotateVector : Vec3
  cubeCoords : List Vec3
  widgetWidth : ℚ
  widgetHeight : ℚ
deriving DecidableEq, Repr

/-- `EventsGL.turnAround` (shown in the events notebook): passes the offsets to
`camera.lookAround` with `pitchBound=True`, then schedules a repaint. -/
def EventsGLState.turnAround (g : EventsGLState) (x y : ℚ) : EventsGLState :=
  { g with camera := g.camera.lookAround x y true }

/-- Modelled from the spec: the body of `EventsGL.moveCamera` is not among the
sources; per the spec the buttons "forward UI values into a camera object", so
the direction string is handed to the camera's movement update. -/
def EventsGLState.moveCamera (g : EventsGLState) (direction : String) :
    EventsGLState :=
  { g with camera := g.camera.moveCamera direction (1/20) }

/-- Modelled from the spec: the body of `EventsGL.rotateCubes` is not among the
sources; per the spec the rotation sliders forward their values "into per-frame
uniform updates", i.e. into the rotation vector used by `paintGL`'s model
matrices, and not into the camera. -/
def EventsGLState.rotateCubes (g : EventsGLState) (rx ry rz : ℚ) :
    EventsGLState :=
  { g with rotateVector := ⟨rx, ry, rz⟩ }

/-- Interpret one window-to-widget call on the GL widget state. -/
def EventsGLState.applyCall (g : EventsGLState) (call : GLCall) : EventsGLState :=
  match call with
  | .moveCamera dir => g.moveCamera dir
  | .turnAround x y => g.turnAround x y
  | .rotateCubes rx ry rz => g.rotateCubes rx ry rz

def EventsGLState.applyCalls (g : EventsGLState) (calls : List GLCall) :
    EventsGLState :=
  calls.foldl EventsGLState.applyCall g

/-! GL command layer.  `QMatrix4x4` constructions are symbolic: a model matrix
is the list of transform operations (`translate`, `rotate`) applied in order to
a fresh identity matrix, and a projection matrix is the record of the four
arguments handed to the library `perspective` call, the aspect-ratio division
guarded against a zero denominator. -/

inductive MatrixOp where
  | translate (pos : Vec3)
  | rotate (angle : ℚ) (axis : Vec3)
deriving DecidableEq, Repr

/-- The four arguments of `QMatrix4x4.perspective(verticalAngle, aspectRatio,
nearPlane, farPlane)`. -/
structure PerspectiveArgs where
  verticalAngle : ℚ
  aspectRatio : Option ℚ
  nearPlane : ℚ
  farPlane : ℚ
deriving DecidableEq, Repr

/-- Guarded division: `none` is the division-by-zero error branch of the
Python `/` operator. -/
def divGuard (a b : ℚ) : Option ℚ :=
  if b = 0 then none else some (a / b)

/-- The GL/uniform commands a drawing or initialization routine issues, in
order.  Shader compilation, vao/vbo binding and vertex-attribute layout are
elided; buffer writes (`QOpenGLBuffer.allocate`) are kept because the claims
distinguish reading the vertex buffer from changing it. -/
inductive GLCmd where
  | glClear (colorBuffer depthBuffer : Bool)
  | setProjectionUniform (args : PerspectiveArgs)
  | setViewUniform
  | setModelUniform (ops : List MatrixOp)
  | bindTexture (unit : ℕ)
  | allocateVbo (data : List ℚ)
  | drawArrays (mode : String) (first count : ℕ)
  | drawElements (mode : String) (count : ℕ) (indices : List ℕ)
deriving DecidableEq, Repr

/-- `CubeGL.__init__`'s `cubeVertices` array: 36 vertices, 5 floats each
(position vec3 followed by texcoord vec2), 180 floats in total. -/
def cubeVerticesData : List ℚ := [
  -0.5, -0.5, -0.5, 0.0, 0.0,
  0.5, -0.5, -0.5, 1.0, 0.0,
  0.5, 0.5, -0.5, 1.0, 1.0,
  0.5, 0.5, -0.5, 1.0, 1.0,
  -0.5, 0.5, -0.5, 0.0, 1.0,
  -0.5, -0.5, -0.5, 0.0, 0.0,

  -0.5, -0.5, 0.5, 0.0, 0.0,
  0.5, -0.5, 0.5, 1.0, 0.0,
  0.5, 0.5, 0.5, 1.0, 1.0,
  0.5, 0.5, 0.5, 1.0, 1.0,
  -0.5, 0.5, 0.5, 0.0, 1.0,
  -0.5, -0.5, 0.5, 0.0, 0.0,

  -0.5, 0.5, 0.5, 1.0, 0.0,
  -0.5, 0.5, -0.5, 1.0, 1.0,
  -0.5, -0.5, -0.5, 0.0, 1.0,
  -0.5, -0.5, -0.5, 0.0, 1.0,
  -0.5, -0.5, 0.5, 0.0, 0.0,
  -0.5, 0.5, 0.5, 1.0, 0.0,

  0.5, 0.5, 0.5, 1.0, 0.0,
  0.5, 0.5, -0.5, 1.0, 1.0,
  0.5, -0.5, -0.5, 0.0, 1.0,
  0.5, -0.5, -0.5, 0.0, 1.0,
  0.5, -0.5, 0.5, 0.0, 0.0,
  0.5, 0.5, 0.5, 1.0, 0.0,

  -0.5, -0.5, -0.5, 0.0, 1.0,
  0.5, -0.5, -0.5, 1.0, 1.0,
  0.5, -0.5, 0.5, 1.0, 0.0,
  0.5, -0.5, 0.5, 1.0, 0.0,
  -0.5, -0.5, 0.5, 0.0, 0.0,
  -0.5, -0.5, -0.5, 0.0, 1.0,

  -0.5, 0.5, -0.5, 0.0, 1.0,
  0.5, 0.5, -0.5, 1.0, 1.0,
  0.5, 0.5, 0.5, 1.0, 0.0,
  0.5, 0.5, 0.5, 1.0, 0.0,
  -0.5, 0.5, 0.5, 0.0, 0.0,
  -0.5, 0.5, -0.5, 0.0, 1.0]

/-- `CubeGL.__init__`'s `cubeCoords`: world positions of the 10 cubes. -/
def cubeCoordsData : List Vec3 := [
  ⟨0.0, 0.0, 0.0⟩,
  ⟨2.0, 5.0, -15.0⟩,
  ⟨-1.5, -2.2, -2.5⟩,
  ⟨-3.8, -2.0, -12.3⟩,
  ⟨2.4, -0.4, -3.5⟩,
  ⟨-1.7, 3.0, -7.5⟩,
  ⟨1.3, -2.0, -2.5⟩,
  ⟨1.5, 2.0, -2.5⟩,
  ⟨1.5, 0.2, -1.5⟩,
  ⟨-1.3, 1.0, -1.5⟩]

/-- State of the `CubeGL` widget (05-cube): camera, the static vertex data and
cube positions from the constructor, the widget dimensions and the two texture
units. -/
structure CubeGLState where
  camera : Camera
  cubeVertices : List ℚ
  cubeCoords : List Vec3
  widgetWidth : ℚ
  widgetHeight : ℚ
  texUnit1 : ℕ
  texUnit2 : ℕ
deriving DecidableEq, Repr

/-- `CubeGL.__init__`: takes the freshly constructed `QtCamera` (its defaults
live in the absent `camera.py`) and overrides position, front and up; stores
the vertex array, the cube coordinates and texture units 0 and 1. -/
def CubeGLState.init (cam0 : Camera) (w h : ℚ) : CubeGLState :=
  { camera := { cam0 with
      position := ⟨0.0, 0.0, 3.0⟩
      front := ⟨0.0, 0.0, -1.0⟩
      up := ⟨0.0, 1.0, 0.0⟩ }
    cubeVertices := cubeVerticesData
    cubeCoords := cubeCoordsData
    widgetWidth := w
    widgetHeight := h
    texUnit1 := 0
    texUnit2 := 1 }

/-- The uniform/buffer commands of `CubeGL.initializeGL`, in source order:
the projection uniform from `perspective(camera.zoom, width()/height(), 0.2,
100.0)`, the view uniform, the `vbo.allocate` of the vertex array, and the
binding of the two textures to their units.  (Context/shader setup and
vertex-attribute layout have no uniform or buffer effect and are elided.) -/
def CubeGLState.cubeInitGL (s : CubeGLState) : List GLCmd :=
  [GLCmd.setProjectionUniform
    ⟨s.camera.zoom, divGuard s.widgetWidth s.widgetHeight, 0.2, 100.0⟩,
   GLCmd.setViewUniform,
   GLCmd.allocateVbo s.cubeVertices,
   GLCmd.bindTexture s.texUnit1,
   GLCmd.bindTexture s.texUnit2]

/-- `CubeGL.paintGL`: clears the colour and depth buffers, then for each
`(i, pos)` in `enumerate(cubeCoords)` sets the model uniform to a fresh matrix
translated by `pos` and rotated by `30 * i` degrees about `rotvec =
(0.7, 0.2, 0.5)`, rebinds the two textures, and calls
`glDrawArrays(GL_TRIANGLES, 0, cubeVertices.size)` — `.size` being the number
of floats of the array.  No widget field is written. -/
def CubeGLState.paintGL (s : CubeGLState) : CubeGLState × List GLCmd :=
  let rotvec : Vec3 := ⟨0.7, 0.2, 0.5⟩
  let draws := (s.cubeCoords.enum.map (fun ip =>
    [GLCmd.setModelUniform
      [MatrixOp.translate ip.2, MatrixOp.rotate (30 * (ip.1 : ℚ)) rotvec],
     GLCmd.bindTexture s.texUnit1,
     GLCmd.bindTexture s.texUnit2,
     GLCmd.drawArrays "GL_TRIANGLES" 0 s.cubeVertices.length])).flatten
  (s, GLCmd.glClear true true :: draws)

/-- `EventsGL.paintGL`: clears both buffers, recomputes the projection uniform
from `perspective(camera.zoom, width()/height(), 0.2, 100.0)` and the view
uniform each frame, then for each `(i, pos)` in `enumerate(cubeCoords)` sets
the model uniform to a fresh matrix translated by `pos` and rotated by `30 * i`
degrees about `self.rotateVector`, rebinds textures on units 0 and 1, and
calls `glDrawArrays(GL_TRIANGLES, 0, 36)`.  No widget field is written. -/
def EventsGLState.paintGL (g : EventsGLState) : EventsGLState × List GLCmd :=
  let draws := (g.cubeCoords.enum.map (fun ip =>
    [GLCmd.setModelUniform
      [MatrixOp.translate ip.2, MatrixOp.rotate (30 * (ip.1 : ℚ)) g.rotateVector],
     GLCmd.bindTexture 0,
     GLCmd.bindTexture 1,
     GLCmd.drawArrays "GL_TRIANGLES" 0 36])).flatten
  (g, GLCmd.glClear true true
    :: GLCmd.setProjectionUniform
        ⟨g.camera.zoom, divGuard g.widgetWidth g.widgetHeight, 0.2, 100.0⟩
    :: GLCmd.setViewUniform
    :: draws)

/-- `RectangleGL.__init__`'s `indices` array: the two triangles making up the
rectangle. -/
def rectIndices : List ℕ := [
  0, 1, 3,
  1, 2, 3]

/-- `RectangleGL.__init__`'s `vertexData` array: the four corners of the
rectangle, 3 floats each. -/
def rectVertexData : List ℚ := [
  0.5, 0.5, 0.0,
  0.5, -0.5, 0.0,
  -0.5, -0.5, 0.0,
  -0.5, 0.5, 0.0]

/-- `RectangleGL.paintGL`: clears the colour buffer, then calls
`glDrawElements(GL_TRIANGLES, indices.size, GL_UNSIGNED_INT, indices)`. -/
def rectPaintGL : List GLCmd :=
  [GLCmd.glClear true false,
   GLCmd.drawElements "GL_TRIANGLES" rectIndices.length rectIndices]

/-- The buffer-level effect of a GL command: only `QOpenGLBuffer.allocate`
writes the vertex buffer; every other command leaves it unchanged. -/
structure GLBufferState where
  vboContents : List ℚ
deriving DecidableEq, Repr

def GLBufferState.applyCmd (st : GLBufferState) (cmd : GLCmd) : GLBufferState :=
  match cmd with
  | .allocateVbo data => { vboContents := data }
  | _ => st

def GLBufferState.applyCmds (st : GLBufferState) (cmds : List GLCmd) :
    GLBufferState :=
  cmds.foldl GLBufferState.applyCmd st

/-! Trace extractors and delivery folds used to state the claims. -/

/-- The projection-uniform settings of a command trace, in order. -/
def projectionSets (cmds : List GLCmd) : List PerspectiveArgs :=
  cmds.filterMap (fun c =>
    match c with
    | .setProjectionUniform a => some a
    | _ => none)

/-- The model-uniform settings of a command trace, in order. -/
def modelSets (cmds : List GLCmd) : List (List MatrixOp) :=
  cmds.filterMap (fun c =>
    match c with
    | .setModelUniform ops => some ops
    | _ => none)

/-- The `glDrawArrays` calls of a command trace: (mode, first, count). -/
def drawArraysCalls (cmds : List GLCmd) : List (String × ℕ × ℕ) :=
  cmds.filterMap (fun c =>
    match c with
    | .drawArrays m f n => some (m, f, n)
    | _ => none)

/-- The x arguments of the `turnAround` calls of a window trace, in order. -/
def turnXArgs (calls : List GLCall) : List ℚ :=
  calls.filterMap (fun c =>
    match c with
    | .turnAround x _ => some x
    | _ => none)

/-- The y arguments of the `turnAround` calls of a window trace, in order. -/
def turnYArgs (calls : List GLCall) : List ℚ :=
  calls.filterMap (fun c =>
    match c with
    | .turnAround _ y => some y
    | _ => none)

/-- Deliver a sequence of slider values straight to `turnCameraX`, as repeated
`camX.valueChanged` signals would, collecting the emitted calls. -/
def EventAppWindow.deliverCamX (w : EventAppWindow) (vs : List ℚ) :
    EventAppWindow × List GLCall :=
  match vs with
  | [] => (w, [])
  | v :: rest =>
    let (w1, cs) := w.turnCameraX v
    let (w2, cs2) := w1.deliverCamX rest
    (w2, cs ++ cs2)

/-- Deliver a sequence of slider values straight to `turnCameraY`. -/
def EventAppWindow.deliverCamY (w : EventAppWindow) (vs : List ℚ) :
    EventAppWindow × List GLCall :=
  match vs with
  | [] => (w, [])
  | v :: rest =>
    let (w1, cs) := w.turnCameraY v
    let (w2, cs2) := w1.deliverCamY rest
    (w2, cs ++ cs2)

/-! Invariants for the clamped-range claim. -/

/-- The state the constructor's `setRange(-180.0, 180.0)` establishes for each
widget, and which every later clamped `setValue` maintains. -/
def SliderInRange (s : Slider) : Prop :=
  s.lo = -180 ∧ s.hi = 180 ∧ -180 ≤ s.val ∧ s.val ≤ 180

/-- Window invariant: every widget is clamped to `[-180, 180]` and the two
remembered slider values are in that range. -/
def WindowInv (w : EventAppWindow) : Prop :=
  SliderInRange w.camX ∧ SliderInRange w.camY ∧ SliderInRange w.xSlider ∧
    SliderInRange w.ySlider ∧ SliderInRange w.zSlider ∧
    (-180 ≤ w.lastCamXVal ∧ w.lastCamXVal ≤ 180) ∧
    (-180 ≤ w.lastCamYVal ∧ w.lastCamYVal ≤ 180)

/-- Range discipline of a single forwarded call: cube-rotation values are
in-range slider readings, while `turnAround` offsets are differences of two
in-range values and so only lie in `[-360, 360]`. -/
def CallBounded (c : GLCall) : Prop :=
  match c with
  | .moveCamera _ => True
  | .turnAround x y => (-360 ≤ x ∧ x ≤ 360) ∧ (-360 ≤ y ∧ y ≤ 360)
  | .rotateCubes rx ry rz =>
    (-180 ≤ rx ∧ rx ≤ 180) ∧ (-180 ≤ ry ∧ ry ≤ 180) ∧ (-180 ≤ rz ∧ rz ≤ 180)

/-! Concrete sample states, used to evaluate the embedded code at specific
inputs. -/

/-- A camera in the default pose of the 05-cube constructor, with the usual
fps defaults for the fields `camera.py` would provide. -/
def sampleCamera : Camera :=
  { position := ⟨0.0, 0.0, 3.0⟩
    front := ⟨0.0, 0.0, -1.0⟩
    up := ⟨0.0, 1.0, 0.0⟩
    right := ⟨1.0, 0.0, 0.0⟩
    yaw := -90
    pitch := 0
    zoom := 45 }

/-- A `CubeGL` widget exactly as `CubeGL.__init__` builds it, on a 640x480
surface. -/
def sampleCubeState : CubeGLState :=
  CubeGLState.init sampleCamera 640 480

/-- An `EventsGL` widget on a 640x480 surface, holding the same cube layout. -/
def sampleEventsState : EventsGLState :=
  { camera := sampleCamera
    rotateVector := ⟨0.7, 0.2, 0.5⟩
    cubeCoords := cubeCoordsData
    widgetWidth := 640
    widgetHeight := 480 }

/-- A window whose five widgets are freshly clamped to `[-180, 180]` and hold
value `0`, with the remembered values matching, as after construction from a
zeroed base window. -/
def sampleWindow : EventAppWindow :=
  { camX := ⟨-180, 180, 0⟩
    camY := ⟨-180, 180, 0⟩
    xSlider := ⟨-180, 180, 0⟩
    ySlider := ⟨-180, 180, 0⟩
    zSlider := ⟨-180, 180, 0⟩
    lastCamXVal := 0
    lastCamYVal := 0 }

/-! Helper lemmas. -/

theorem applyCmds_append (st : GLBufferState) (a b : List GLCmd) :
    st.applyCmds (a ++ b) = (st.applyCmds a).applyCmds b := by
  simp [GLBufferState.applyCmds, List.foldl_append]

theorem applyCmds_flatten {α : Type} (l : List α) (f : α → List GLCmd)
    (hf : ∀ a st, GLBufferState.applyCmds st (f a) = st) (st : GLBufferState) :
    st.applyCmds (l.map f).flatten = st := by
  induction l generalizing st with
  | nil => rfl
  | cons x xs ih =>
    rw [List.map_cons, List.flatten_cons, applyCmds_append, hf]
    exact ih st

theorem setValue_inRange (s : Slider) (v : ℚ) (h : SliderInRange s) :
    SliderInRange (s.setValue v) := by
  obtain ⟨hlo, hhi, -, -⟩ := h
  refine ⟨hlo, hhi, ?_, ?_⟩
  · simp only [Slider.setValue, hlo]
    exact le_max_left _ _
  · simp only [Slider.setValue, hlo, hhi]
    exact max_le (by norm_num) (min_le_left _ _)

theorem forall_callBounded_append (a b : List GLCall) :
    List.Forall CallBounded (a ++ b) ↔
      List.Forall CallBounded a ∧ List.Forall CallBounded b := by
  simp only [List.forall_iff_forall_mem, List.mem_append]
  constructor
  · intro h
    exact ⟨fun c hc => h c (Or.inl hc), fun c hc => h c (Or.inr hc)⟩
  · rintro ⟨ha, hb⟩ c (hc | hc)
    · exact ha c hc
    · exact hb c hc

theorem windowInv_activate (w : EventAppWindow) (c : Control) (v : ℚ)
    (h : WindowInv w) :
    WindowInv (w.activate c v).1 ∧ List.Forall CallBounded (w.activate c v).2 := by
  obtain ⟨h1, h2, h3, h4, h5, hx, hy⟩ := h
  cases c with
  | camX =>
    have hv := setValue_inRange w.camX v h1
    refine ⟨⟨hv, h2, h3, h4, h5, ⟨hv.2.2.1, hv.2.2.2⟩, hy⟩, ?_⟩
    simp only [EventAppWindow.activate, EventAppWindow.setControlValue,
      EventAppWindow.turnCameraX, List.Forall, CallBounded]
    refine ⟨⟨?_, ?_⟩, ?_, ?_⟩
    · linarith [hv.2.2.1, hx.2]
    · linarith [hv.2.2.2, hx.1]
    · linarith [h2.2.2.1, hy.2]
    · linarith [h2.2.2.2, hy.1]
  | camY =>
    have hv := setValue_inRange w.camY v h2
    refine ⟨⟨h1, hv, h3, h4, h5, hx, ⟨hv.2.2.1, hv.2.2.2⟩⟩, ?_⟩
    simp only [EventAppWindow.activate, EventAppWindow.setControlValue,
      EventAppWindow.turnCameraY, List.Forall, CallBounded]
    refine ⟨⟨?_, ?_⟩, ?_, ?_⟩
    · linarith [h1.2.2.1, hx.2]
    · linarith [h1.2.2.2, hx.1]
    · linarith [hv.2.2.1, hy.2]
    · linarith [hv.2.2.2, hy.1]
  | xSlider =>
    have hv := setValue_inRange w.xSlider v h3
    exact ⟨⟨h1, h2, hv, h4, h5, hx, hy⟩,
      ⟨hv.2.2.1, hv.2.2.2⟩, ⟨h4.2.2.1, h4.2.2.2⟩, ⟨h5.2.2.1, h5.2.2.2⟩⟩
  | ySlider =>
    have hv := setValue_inRange w.ySlider v h4
    exact ⟨⟨h1, h2, h3, hv, h5, hx, hy⟩,
      ⟨h3.2.2.1, h3.2.2.2⟩, ⟨hv.2.2.1, hv.2.2.2⟩, ⟨h5.2.2.1, h5.2.2.2⟩⟩
  | zSlider =>
    have hv := setValue_inRange w.zSlider v h5
    exact ⟨⟨h1, h2, h3, h4, hv, hx, hy⟩,
      ⟨h3.2.2.1, h3.2.2.2⟩, ⟨h4.2.2.1, h4.2.2.2⟩, ⟨hv.2.2.1, hv.2.2.2⟩⟩
  | upBtn => exact ⟨⟨h1, h2, h3, h4, h5, hx, hy⟩, trivial⟩
  | downBtn => exact ⟨⟨h1, h2, h3, h4, h5, hx, hy⟩, trivial⟩
  | leftBtn => exact ⟨⟨h1, h2, h3, h4, h5, hx, hy⟩, trivial⟩
  | rightBtn => exact ⟨⟨h1, h2, h3, h4, h5, hx, hy⟩, trivial⟩

theorem windowInv_runEvents (w : EventAppWindow) (evts : List (Control × ℚ))
    (h : WindowInv w) :
    WindowInv (w.runEvents evts).1 ∧
      List.Forall CallBounded (w.runEvents evts).2 := by
  induction evts generalizing w with
  | nil => exact ⟨h, trivial⟩
  | cons e rest ih =>
    obtain ⟨ha, hb⟩ := windowInv_activate w e.1 e.2 h
    obtain ⟨hc, hd⟩ := ih (w.activate e.1 e.2).1 ha
    rw [EventAppWindow.runEvents]
    exact ⟨hc, (forall_callBounded_append _ _).mpr ⟨hb, hd⟩⟩

theorem windowInv_init (camX0 camY0 xs0 ys0 zs0 : Slider) :
    WindowInv (EventAppWindow.init camX0 camY0 xs0 ys0 zs0) := by
  have hs : ∀ s : Slider, SliderInRange (s.setRange (-180) 180) := by
    intro s
    refine ⟨rfl, rfl, le_max_left _ _, max_le (by norm_num) (min_le_left _ _)⟩
  refine ⟨hs camX0, hs camY0, hs xs0, hs ys0, hs zs0, ?_, ?_⟩
  · exact ⟨(hs camX0).2.2.1, (hs camX0).2.2.2⟩
  · exact ⟨(hs camY0).2.2.1, (hs camY0).2.2.2⟩

theorem deliverCamX_state (w : EventAppWindow) (vs : List ℚ) :
    (w.deliverCamX vs).1 =
      { w with lastCamXVal := vs.getLastD w.lastCamXVal } := by
  induction vs generalizing w with
  | nil => rfl
  | cons v rest ih =>
    rw [EventAppWindow.deliverCamX]
    simp only [EventAppWindow.turnCameraX]
    rw [List.getLastD_cons, ih]

theorem deliverCamY_state (w : EventAppWindow) (vs : List ℚ) :
    (w.deliverCamY vs).1 =
      { w with lastCamYVal := vs.getLastD w.lastCamYVal } := by
  induction vs generalizing w with
  | nil => rfl
  | cons v rest ih =>
    rw [EventAppWindow.deliverCamY]
    simp only [EventAppWindow.turnCameraY]
    rw [List.getLastD_cons, ih]

theorem turnXArgs_append (a b : List GLCall) :
    turnXArgs (a ++ b) = turnXArgs a ++ turnXArgs b := by
  simp [turnXArgs]

theorem turnYArgs_append (a b : List GLCall) :
    turnYArgs (a ++ b) = turnYArgs a ++ turnYArgs b := by
  simp [turnYArgs]

theorem turnXArgs_deliverCamX (w : EventAppWindow) (vs : List ℚ) :
    turnXArgs (w.deliverCamX vs).2 =
      List.zipWith (fun a b => a - b) vs (w.lastCamXVal :: vs) := by
  induction vs generalizing w with
  | nil => rfl
  | cons v rest ih =>
    rw [EventAppWindow.deliverCamX]
    simp only [EventAppWindow.turnCameraX]
    rw [turnXArgs_append, ih]
    rfl

theorem turnYArgs_deliverCamY (w : EventAppWindow) (vs : List ℚ) :
    turnYArgs (w.deliverCamY vs).2 =
      List.zipWith (fun a b => a - b) vs (w.lastCamYVal :: vs) := by
  induction vs generalizing w with
  | nil => rfl
  | cons v rest ih =>
    rw [EventAppWindow.deliverCamY]
    simp only [EventAppWindow.turnCameraY]
    rw [turnYArgs_append, ih]
    rfl

theorem sum_zipWith_sub (v0 : ℚ) (vs : List ℚ) :
    (List.zipWith (fun a b => a - b) vs (v0 :: vs)).sum =
      vs.getLastD v0 - v0 := by
  induction vs generalizing v0 with
  | nil => simp
  | cons v rest ih =>
    rw [List.zipWith_cons_cons, List.sum_cons, ih v, List.getLastD_cons]
    ring

theorem turnYArgs_deliverCamX_const (w : EventAppWindow) (vs : List ℚ) :
    turnYArgs (w.deliverCamX vs).2 =
      List.replicate vs.length (w.camY.val - w.lastCamYVal) := by
  induction vs generalizing w with
  | nil => rfl
  | cons v rest ih =>
    rw [EventAppWindow.deliverCamX]
    simp only [EventAppWindow.turnCameraX]
    rw [turnYArgs_append, ih]
    rfl

set_option maxRecDepth 8000

/-! The claims. -/

/-- Claim C1, amended.  The camera sliders `camX`, `camY` and the four
direction buttons are wired to camera movement: each of their activations
forwards exactly one `turnAround` (with the offset arguments computed by the
handler) or one `moveCamera` call to the GL widget.  The rotation sliders
`xSlider`, `ySlider`, `zSlider` are instead wired to `rotateCubes`: their
activations forward only a `rotateCubes` call, and applying it to any GL
widget state leaves the camera state unchanged. -/
theorem c1_controls_camera_wiring (w : EventAppWindow) (v : ℚ)
    (g : EventsGLState) :
    (w.activate Control.camX v).2 =
      [GLCall.turnAround ((w.camX.setValue v).val - w.lastCamXVal)
        (w.camY.val - w.lastCamYVal)] ∧
    (w.activate Control.camY v).2 =
      [GLCall.turnAround (w.camX.val - w.lastCamXVal)
        ((w.camY.setValue v).val - w.lastCamYVal)] ∧
    (w.activate Control.upBtn v).2 = [GLCall.moveCamera "forward"] ∧
    (w.activate Control.downBtn v).2 = [GLCall.moveCamera "backward"] ∧
    (w.activate Control.leftBtn v).2 = [GLCall.moveCamera "left"] ∧
    (w.activate Control.rightBtn v).2 = [GLCall.moveCamera "right"] ∧
    (w.activate Control.xSlider v).2 =
      [GLCall.rotateCubes (w.xSlider.setValue v).val w.ySlider.val
        w.zSlider.val] ∧
    (g.applyCalls (w.activate Control.xSlider v).2).camera = g.camera ∧
    (g.applyCalls (w.activate Control.ySlider v).2).camera = g.camera ∧
    (g.applyCalls (w.activate Control.zSlider v).2).camera = g.camera :=
  ⟨rfl, rfl, rfl, rfl, rfl, rfl, rfl, rfl, rfl, rfl⟩

/-- Claim C1, counterexample to the claim as stated: activating the `xSlider`
control (here with value 10, on a freshly constructed window and a concrete GL
widget) results in a handler call that does not change the camera state — it
changes only the cube rotation vector. -/
theorem c1_xSlider_counterexample :
    (sampleWindow.activate Control.xSlider 10).2 = [GLCall.rotateCubes 10 0 0] ∧
    sampleEventsState.applyCalls (sampleWindow.activate Control.xSlider 10).2
        = { sampleEventsState with rotateVector := ⟨10, 0, 0⟩ } ∧
    (sampleEventsState.applyCalls
        (sampleWindow.activate Control.xSlider 10).2).camera
        = sampleEventsState.camera := by
  refine ⟨?_, ?_, ?_⟩
  · norm_num [sampleWindow, EventAppWindow.activate, EventAppWindow.setControlValue,
      EventAppWindow.rotateCubes, Slider.setValue]
  · norm_num [sampleWindow, EventAppWindow.activate, EventAppWindow.setControlValue,
      EventAppWindow.rotateCubes, Slider.setValue, EventsGLState.applyCalls,
      EventsGLState.applyCall, EventsGLState.rotateCubes]
  · norm_num [sampleWindow, EventAppWindow.activate, EventAppWindow.setControlValue,
      EventAppWindow.rotateCubes, Slider.setValue, EventsGLState.applyCalls,
      EventsGLState.applyCall, EventsGLState.rotateCubes]

/-- Claim C2, amended.  After construction, for every sequence of UI events the
five sliders stay clamped to `[-180, 180]` (and so do the remembered
`lastCamXVal`/`lastCamYVal`), enforced by the constructor's range clamps, and
every forwarded `rotateCubes` value is within `[-180, 180]`; the `turnAround`
offsets forwarded into the camera, being differences of two in-range values,
are only bounded by `[-360, 360]`. -/
theorem c2_clamped_ranges (camX0 camY0 xs0 ys0 zs0 : Slider)
    (evts : List (Control × ℚ)) :
    WindowInv ((EventAppWindow.init camX0 camY0 xs0 ys0 zs0).runEvents evts).1 ∧
    List.Forall CallBounded
      ((EventAppWindow.init camX0 camY0 xs0 ys0 zs0).runEvents evts).2 :=
  windowInv_runEvents _ evts (windowInv_init camX0 camY0 xs0 ys0 zs0)

/-- Claim C2, witness: the amended theorem applied to a concrete construction
and event sequence. -/
theorem c2_clamped_ranges_witness :
    WindowInv ((EventAppWindow.init ⟨-200, 200, 0⟩ ⟨-200, 200, 0⟩ ⟨-200, 200, 0⟩
        ⟨-200, 200, 0⟩ ⟨-200, 200, 0⟩).runEvents
      [(Control.camX, 90), (Control.upBtn, 0), (Control.xSlider, -400)]).1 ∧
    List.Forall CallBounded
      ((EventAppWindow.init ⟨-200, 200, 0⟩ ⟨-200, 200, 0⟩ ⟨-200, 200, 0⟩
        ⟨-200, 200, 0⟩ ⟨-200, 200, 0⟩).runEvents
      [(Control.camX, 90), (Control.upBtn, 0), (Control.xSlider, -400)]).2 :=
  c2_clamped_ranges ⟨-200, 200, 0⟩ ⟨-200, 200, 0⟩ ⟨-200, 200, 0⟩
    ⟨-200, 200, 0⟩ ⟨-200, 200, 0⟩
    [(Control.camX, 90), (Control.upBtn, 0), (Control.xSlider, -400)]

/-- Claim C2, counterexample to the claim as stated: sliding `camX` from its
initial value 0 to -180 and then to 180 forwards the x offset `360` into the
camera via `turnAround`, and `360` is outside the claimed range
`[-180, 180]`. -/
theorem c2_forwarded_offset_counterexample :
    ((EventAppWindow.init ⟨-200, 200, 0⟩ ⟨-200, 200, 0⟩ ⟨-200, 200, 0⟩
        ⟨-200, 200, 0⟩ ⟨-200, 200, 0⟩).runEvents
      [(Control.camX, -180), (Control.camX, 180)]).2 =
      [GLCall.turnAround (-180) 0, GLCall.turnAround 360 0] ∧
    ¬ ((360 : ℚ) ≤ 180) := by
  constructor
  · norm_num [EventAppWindow.init, Slider.setRange, EventAppWindow.runEvents,
      EventAppWindow.activate, EventAppWindow.setControlValue,
      EventAppWindow.turnCameraX, Slider.setValue]
  · norm_num

/-- Claim C3.  The two per-frame draw loops diverge in the vertex count they
pass to `glDrawArrays`: `CubeGL.paintGL` passes `cubeVertices.size = 180` (the
number of floats of the array, five per vertex) for each of its 10 draw calls,
while `EventsGL.paintGL` — presented in the notebook as the very same code —
passes `36` (the actual number of vertices); mode and first index agree, and
`180 = 5 * 36 ≠ 36`. -/
theorem c3_draw_count_divergence :
    sampleCubeState.cubeVertices.length = 180 ∧
    drawArraysCalls sampleCubeState.paintGL.2 =
      List.replicate 10 ("GL_TRIANGLES", 0, 180) ∧
    drawArraysCalls sampleEventsState.paintGL.2 =
      List.replicate 10 ("GL_TRIANGLES", 0, 36) ∧
    180 = 5 * 36 ∧ (180 : ℕ) ≠ 36 :=
  ⟨rfl, rfl, rfl, rfl, by decide⟩

/-- Claim C4.  Offset accumulation telescopes: delivering a sequence of values
to `turnCameraX` forwards exactly the consecutive differences as x offsets,
their sum is the last value minus the starting `lastCamXVal`, after the calls
`lastCamXVal` equals the value last delivered (so, by instantiating the value
list with any prefix, after each call it equals the value just delivered); the
symmetric statements hold for `turnCameraY`; and when `camY`'s value equals the
remembered `lastCamYVal`, every y argument `turnCameraX` forwards is 0. -/
theorem c4_offset_telescoping (w : EventAppWindow) (vs : List ℚ) :
    turnXArgs (w.deliverCamX vs).2 =
      List.zipWith (fun a b => a - b) vs (w.lastCamXVal :: vs) ∧
    (turnXArgs (w.deliverCamX vs).2).sum =
      vs.getLastD w.lastCamXVal - w.lastCamXVal ∧
    (w.deliverCamX vs).1.lastCamXVal = vs.getLastD w.lastCamXVal ∧
    turnYArgs (w.deliverCamY vs).2 =
      List.zipWith (fun a b => a - b) vs (w.lastCamYVal :: vs) ∧
    (turnYArgs (w.deliverCamY vs).2).sum =
      vs.getLastD w.lastCamYVal - w.lastCamYVal ∧
    (w.deliverCamY vs).1.lastCamYVal = vs.getLastD w.lastCamYVal ∧
    (w.camY.val = w.lastCamYVal →
      turnYArgs (w.deliverCamX vs).2 = List.replicate vs.length 0) := by
  refine ⟨turnXArgs_deliverCamX w vs, ?_, ?_,
    turnYArgs_deliverCamY w vs, ?_, ?_, ?_⟩
  · rw [turnXArgs_deliverCamX w vs, sum_zipWith_sub]
  · rw [deliverCamX_state w vs]
  · rw [turnYArgs_deliverCamY w vs, sum_zipWith_sub]
  · rw [deliverCamY_state w vs]
  · intro hconst
    rw [turnYArgs_deliverCamX_const w vs, hconst, sub_self]

/-- Claim C4, witness: on a freshly constructed window (where `camY`'s value
equals `lastCamYVal`) delivering `[30, -40]` to `turnCameraX` forwards y
argument 0 both times. -/
theorem c4_offset_telescoping_witness :
    sampleWindow.camY.val = sampleWindow.lastCamYVal ∧
    turnYArgs (sampleWindow.deliverCamX [30, -40]).2 = List.replicate 2 0 :=
  ⟨rfl, (c4_offset_telescoping sampleWindow [30, -40]).2.2.2.2.2.2 rfl⟩

/-- Claim C5.  Wherever the projection uniform is set — once in
`CubeGL.initializeGL`, once per frame in `EventsGL.paintGL`, and nowhere in
`CubeGL.paintGL` — it is the library `perspective` call with field of view
`camera.zoom`, aspect ratio `width()/height()`, near plane `0.2` and far plane
`100.0`, and nothing else. -/
theorem c5_projection_args (s : CubeGLState) (g : EventsGLState) :
    projectionSets s.cubeInitGL =
      [⟨s.camera.zoom, divGuard s.widgetWidth s.widgetHeight, 0.2, 100.0⟩] ∧
    projectionSets s.paintGL.2 = [] ∧
    projectionSets g.paintGL.2 =
      [⟨g.camera.zoom, divGuard g.widgetWidth g.widgetHeight, 0.2, 100.0⟩] := by
  refine ⟨rfl, ?_, ?_⟩
  · simp [CubeGLState.paintGL, projectionSets]
  · simp [EventsGLState.paintGL, projectionSets]

/-- Claim C6.  The vertex buffer is fixed across frames: `CubeGL.paintGL`
leaves `cubeVertices` and `cubeCoords` (indeed the whole widget state)
unchanged, and its command trace contains no buffer write, so interpreting it
over any vbo contents returns them unchanged. -/
theorem c6_vertex_buffer_fixed (s : CubeGLState) (buf : GLBufferState) :
    s.paintGL.1.cubeVertices = s.cubeVertices ∧
    s.paintGL.1.cubeCoords = s.cubeCoords ∧
    s.paintGL.1 = s ∧
    buf.applyCmds s.paintGL.2 = buf := by
  refine ⟨rfl, rfl, rfl, ?_⟩
  exact applyCmds_flatten (s.cubeCoords.enum)
    (fun ip =>
      [GLCmd.setModelUniform
        [MatrixOp.translate ip.2, MatrixOp.rotate (30 * (ip.1 : ℚ)) ⟨0.7, 0.2, 0.5⟩],
       GLCmd.bindTexture s.texUnit1,
       GLCmd.bindTexture s.texUnit2,
       GLCmd.drawArrays "GL_TRIANGLES" 0 s.cubeVertices.length])
    (fun ip st => rfl) buf

/-- Claim C7.  Each directional button forwards exactly its direction string:
`upBtn`, `downBtn`, `leftBtn`, `rightBtn` call `glWidget.moveCamera` with
precisely "forward", "backward", "left", "right", and the window state —
`lastCamXVal` and `lastCamYVal` included — is returned unchanged. -/
theorem c7_button_forwarding (w : EventAppWindow) (v : ℚ) :
    w.activate Control.upBtn v = (w, [GLCall.moveCamera "forward"]) ∧
    w.activate Control.downBtn v = (w, [GLCall.moveCamera "backward"]) ∧
    w.activate Control.leftBtn v = (w, [GLCall.moveCamera "left"]) ∧
    w.activate Control.rightBtn v = (w, [GLCall.moveCamera "right"]) :=
  ⟨rfl, rfl, rfl, rfl⟩

/-- Claim C8.  With the constructor's `cubeCoords`, each frame of
`CubeGL.paintGL` issues exactly 10 draw calls, and the model matrix of the
i-th one is the translation by `cubeCoords[i]` followed by the rotation by
`30 * i` degrees about the fixed axis `(0.7, 0.2, 0.5)` — no other model
transform. -/
theorem c8_model_matrices (s : CubeGLState) (h : s.cubeCoords = cubeCoordsData) :
    modelSets s.paintGL.2 = [
      [MatrixOp.translate ⟨0.0, 0.0, 0.0⟩, MatrixOp.rotate 0 ⟨0.7, 0.2, 0.5⟩],
      [MatrixOp.translate ⟨2.0, 5.0, -15.0⟩, MatrixOp.rotate 30 ⟨0.7, 0.2, 0.5⟩],
      [MatrixOp.translate ⟨-1.5, -2.2, -2.5⟩, MatrixOp.rotate 60 ⟨0.7, 0.2, 0.5⟩],
      [MatrixOp.translate ⟨-3.8, -2.0, -12.3⟩, MatrixOp.rotate 90 ⟨0.7, 0.2, 0.5⟩],
      [MatrixOp.translate ⟨2.4, -0.4, -3.5⟩, MatrixOp.rotate 120 ⟨0.7, 0.2, 0.5⟩],
      [MatrixOp.translate ⟨-1.7, 3.0, -7.5⟩, MatrixOp.rotate 150 ⟨0.7, 0.2, 0.5⟩],
      [MatrixOp.translate ⟨1.3, -2.0, -2.5⟩, MatrixOp.rotate 180 ⟨0.7, 0.2, 0.5⟩],
      [MatrixOp.translate ⟨1.5, 2.0, -2.5⟩, MatrixOp.rotate 210 ⟨0.7, 0.2, 0.5⟩],
      [MatrixOp.translate ⟨1.5, 0.2, -1.5⟩, MatrixOp.rotate 240 ⟨0.7, 0.2, 0.5⟩],
      [MatrixOp.translate ⟨-1.3, 1.0, -1.5⟩,
        MatrixOp.rotate 270 ⟨0.7, 0.2, 0.5⟩]] ∧
    (drawArraysCalls s.paintGL.2).length = 10 := by
  constructor
  · rw [CubeGLState.paintGL, h]
    norm_num [modelSets, cubeCoordsData, List.enum, List.enumFrom,
      List.filterMap_cons, List.filterMap_nil]
  · rw [CubeGLState.paintGL, h]
    norm_num [drawArraysCalls, cubeCoordsData, List.enum, List.enumFrom,
      List.filterMap_cons, List.filterMap_nil]

/-- Claim C8, witness: the freshly constructed `CubeGL` widget has the
constructor's `cubeCoords` and issues 10 draw calls per frame. -/
theorem c8_model_matrices_witness :
    sampleCubeState.cubeCoords = cubeCoordsData ∧
    (drawArraysCalls sampleCubeState.paintGL.2).length = 10 :=
  ⟨rfl, (c8_model_matrices sampleCubeState rfl).2⟩

/-- Claim C9.  Every element of `RectangleGL.indices` is a valid index into the
4-vertex `vertexData` array (below 4, with all three of its floats inside the
12-float array), the element count passed to `glDrawElements` equals
`indices.size = 6`, and the two triples together reference all four
corners. -/
theorem c9_rect_indices_safe :
    List.Forall (fun i => i < 4 ∧ 3 * i + 2 < rectVertexData.length)
      rectIndices ∧
    rectIndices.length = 6 ∧
    GLCmd.drawElements "GL_TRIANGLES" rectIndices.length rectIndices
      ∈ rectPaintGL ∧
    List.Forall (fun v => v ∈ rectIndices) [0, 1, 2, 3] := by
  decide

/-- Claim C10.  The aspect-ratio division `width()/height()` is unguarded in
the source; under the precondition that the widget height is nonzero, the
guarded embedded division takes its success branch (the division-by-zero error
branch is unreachable), and both projection-setting sites receive
`some (width/height)` as aspect ratio. -/
theorem c10_aspect_division_guarded (s : CubeGLState) (g : EventsGLState)
    (hs : s.widgetHeight ≠ 0) (hg : g.widgetHeight ≠ 0) :
    divGuard s.widgetWidth s.widgetHeight =
      some (s.widgetWidth / s.widgetHeight) ∧
    (divGuard g.widgetWidth g.widgetHeight).isSome = true ∧
    projectionSets s.cubeInitGL =
      [⟨s.camera.zoom, some (s.widgetWidth / s.widgetHeight), 0.2, 100.0⟩] ∧
    projectionSets g.paintGL.2 =
      [⟨g.camera.zoom, some (g.widgetWidth / g.widgetHeight), 0.2, 100.0⟩] := by
  have hdiv : divGuard s.widgetWidth s.widgetHeight =
      some (s.widgetWidth / s.widgetHeight) := by
    simp [divGuard, hs]
  have hdivg : divGuard g.widgetWidth g.widgetHeight =
      some (g.widgetWidth / g.widgetHeight) := by
    simp [divGuard, hg]
  refine ⟨hdiv, by simp [hdivg], ?_, ?_⟩
  · simp [CubeGLState.cubeInitGL, projectionSets, hdiv]
  · simp [EventsGLState.paintGL, projectionSets, hdivg]

/-- Claim C10, witness: on the 640x480 sample widgets the height is nonzero and
the guarded division succeeds. -/
theorem c10_aspect_division_guarded_witness :
    sampleEventsState.widgetHeight ≠ 0 ∧
    (divGuard sampleEventsState.widgetWidth
      sampleEventsState.widgetHeight).isSome = true := by
  have hs : sampleCubeState.widgetHeight ≠ 0 := by decide
  have hg : sampleEventsState.widgetHeight ≠ 0 := by decide
  exact ⟨hg,
    (c10_aspect_division_guarded sampleCubeState sampleEventsState hs hg).2.1⟩

end PysideTutorials
